import Mathlib

/-!
Shallow embedding of the Alpharithm accounting API
(src/accounting-api/server.js): the `AccountingLedgerEntry` data model,
the cash-flow report (`GET /api/cash-flow`), the opening-balance lookup
(`getOpeningBalance`) and the bank-reconciliation report
(`GET /api/bank-reconciliation`), together with proofs of the
specification's claims about them.

Modelling conventions:
- a table is a `List LedgerEntry`; SQL `WHERE` clauses become `List.filter`;
- nullable SQL columns become `Option` fields; `col = v` in SQL is false on
  NULL, which `· == some v` reproduces;
- dates are ISO-format strings compared lexicographically via `dateLt` and
  `dateLe` (the order ISO dates induce);
- monetary amounts are `Int` (exact arithmetic; NULL reads as 0, as SQL
  `SUM` skips NULLs);
- HTTP query parameters are `Option String` (`none` = absent), and each
  handler's outcome records its status code, error message, body, and the
  number of database queries it executed.
-/

/-- Row of the `AccountingLedgerEntry` table (spec §3). -/
structure LedgerEntry where
  companyid : String
  date : String
  account : String
  party : Option String
  note : Option String
  debit : Int
  credit : Int
  reconciled : Option Bool
  bankaccount : Option String
  reference : Option String
deriving DecidableEq

/-- Strict lexicographic order on lists of characters, comparing code
points. -/
def listLtChars : List Char → List Char → Bool
  | [], [] => false
  | [], _ :: _ => true
  | _ :: _, [] => false
  | a :: as, b :: bs => decide (a.toNat < b.toNat) || (a == b && listLtChars as bs)

/-- Strict order on date strings: lexicographic, which on ISO dates is
chronological. Models the SQL `date` column order. -/
def dateLt (a b : String) : Bool :=
  listLtChars a.toList b.toList

/-- Inclusive order on date strings. -/
def dateLe (a b : String) : Bool :=
  dateLt a b || a == b

/-- Matching of a character pattern at the head of a list, the building
block of the substring test. -/
def listStartsWith : List Char → List Char → Bool
  | [], _ => true
  | _ :: _, [] => false
  | a :: as, b :: bs => a == b && listStartsWith as bs

/-- Substring test on lists of characters: `listContainsSub pat s` holds when
`pat` occurs contiguously inside `s`. -/
def listContainsSub (pat : List Char) : List Char → Bool
  | [] => listStartsWith pat []
  | b :: bs => listStartsWith pat (b :: bs) || listContainsSub pat bs

/-- Case-insensitive substring test: models SQL `s ILIKE pattern` for a
pattern that is the text wrapped in percent wildcards. -/
def containsCI (s pat : String) : Bool :=
  listContainsSub (pat.toList.map Char.toLower) (s.toList.map Char.toLower)

/-- SQL `note ILIKE pattern` on a nullable column: NULL yields false. -/
def noteContainsCI (note : Option String) (pat : String) : Bool :=
  match note with
  | none => false
  | some s => containsCI s pat

/-- WHERE clause of the cash-flow aggregation query
(server.js lines 82-89): `reconciled = TRUE AND companyid = $1 AND date
BETWEEN $2 AND $3 AND ((account = 'Cash' AND debit > 0) OR (credit > 0 AND
account IN ('Office Rent', 'Utilities Expense', 'Bank Charges')))`. -/
def cashFlowFilter (cid fromDate toDate : String) (e : LedgerEntry) : Bool :=
  e.reconciled == some true
    && e.companyid == cid
    && (dateLe fromDate e.date && dateLe e.date toDate)
    && ((e.account == "Cash" && decide (0 < e.debit))
        || (decide (0 < e.credit)
            && (e.account == "Office Rent" || e.account == "Utilities Expense"
                || e.account == "Bank Charges")))

/-- Rows of `AccountingLedgerEntry` surviving the cash-flow WHERE clause. -/
def survivors (entries : List LedgerEntry) (cid fromDate toDate : String) :
    List LedgerEntry :=
  entries.filter (cashFlowFilter cid fromDate toDate)

/-- CASE expression of the cash-flow query (server.js lines 72-77), first
match wins. -/
def classify (e : LedgerEntry) : String :=
  if e.account == "Cash"
      && (e.party == some "Investor" || noteContainsCI e.note "Loan deposit") then
    "Financing"
  else if e.account == "Sales" || e.account == "Office Rent"
      || e.account == "Utilities Expense" || e.account == "Bank Charges" then
    "Operating"
  else if noteContainsCI e.note "Purchase inventory" then
    "Investing"
  else
    "Operating"

/-- The categories the CASE expression can produce. -/
def categories : List String := ["Financing", "Operating", "Investing"]

/-- Sample entry: an investor cash deposit, used as a concrete witness. -/
def investorCashEntry : LedgerEntry where
  companyid := "1"
  date := "2025-01-05"
  account := "Cash"
  party := some "Investor"
  note := none
  debit := 500
  credit := 0
  reconciled := some true
  bankaccount := none
  reference := none

/-- Sum of the debits of the surviving rows classified into category `c`:
the `SUM(debit) AS total_inflow` of that category's group. -/
def catInflow (entries : List LedgerEntry) (cid fromDate toDate c : String) : Int :=
  (((survivors entries cid fromDate toDate).filter
      (fun e => classify e == c)).map (fun e => e.debit)).sum

/-- Sum of the credits of the surviving rows classified into category `c`:
the `SUM(credit) AS total_outflow` of that category's group. -/
def catOutflow (entries : List LedgerEntry) (cid fromDate toDate c : String) : Int :=
  (((survivors entries cid fromDate toDate).filter
      (fun e => classify e == c)).map (fun e => e.credit)).sum

/-- One row of the grouped cash-flow query result. -/
structure CFRow where
  cashflow_category : String
  total_inflow : Int
  total_outflow : Int
deriving DecidableEq

/-- Result rows of the cash-flow query: `GROUP BY cashflow_category`
produces one row per category that has at least one surviving entry, with
the per-category debit and credit sums. -/
def groupRows (entries : List LedgerEntry) (cid fromDate toDate : String) :
    List CFRow :=
  (categories.filter
      (fun c => (survivors entries cid fromDate toDate).any (fun e => classify e == c))).map
    (fun c => { cashflow_category := c
                total_inflow := catInflow entries cid fromDate toDate c
                total_outflow := catOutflow entries cid fromDate toDate c })

/-- Value stored under a category key in the `cashInflows` / `cashOutflows`
response objects. -/
structure FlowRecord where
  inflows : Int
  outflows : Int
deriving DecidableEq

/-- The `cashInflows` object (server.js lines 108-110): for each result row
with a positive inflow, the entry `category maps-to record of the inflow
with zero outflows`. -/
def cashInflowsOf (rows : List CFRow) : List (String × FlowRecord) :=
  rows.filterMap
    (fun r =>
      if 0 < r.total_inflow then
        some (r.cashflow_category, { inflows := r.total_inflow, outflows := 0 })
      else none)

/-- The `cashOutflows` object (server.js lines 111-113): for each result row
with a positive outflow, the entry `category maps-to record of the outflow
with zero inflows`. -/
def cashOutflowsOf (rows : List CFRow) : List (String × FlowRecord) :=
  rows.filterMap
    (fun r =>
      if 0 < r.total_outflow then
        some (r.cashflow_category, { inflows := 0, outflows := r.total_outflow })
      else none)

/-- `totalInflows`, accumulated over every result row (server.js line 114). -/
def totalInflowsOf (rows : List CFRow) : Int :=
  (rows.map (fun r => r.total_inflow)).sum

/-- `totalOutflows`, accumulated over every result row (server.js line 115). -/
def totalOutflowsOf (rows : List CFRow) : Int :=
  (rows.map (fun r => r.total_outflow)).sum

/-- The opening-balance query (server.js lines 48-61): sum `debit` minus sum
`credit` over the company's rows strictly before the cutoff date. SQL `SUM`
over an empty set is NULL, which `Number(null)` turns into 0; the
`Number.isFinite` guard therefore returns 0 when no row matches. -/
def getOpeningBalance (entries : List LedgerEntry) (cid cutoff : String) : Int :=
  if (entries.filter (fun e => e.companyid == cid && dateLt e.date cutoff)).isEmpty then 0
  else ((entries.filter (fun e => e.companyid == cid && dateLt e.date cutoff)).map
          (fun e => e.debit)).sum
    - ((entries.filter (fun e => e.companyid == cid && dateLt e.date cutoff)).map
          (fun e => e.credit)).sum

/-- Body of a successful `/api/cash-flow` response (server.js lines 122-127). -/
structure CashFlowResponse where
  cashInflows : List (String × FlowRecord)
  cashOutflows : List (String × FlowRecord)
  netChangeInCash : Int
  closingCashBalance : Int
deriving DecidableEq

/-- Successful cash-flow report for validated parameters (server.js lines
94-129). -/
def cashFlowReport (entries : List LedgerEntry) (cid fromDate toDate : String) :
    CashFlowResponse :=
  let rows := groupRows entries cid fromDate toDate
  let netChange := totalInflowsOf rows - totalOutflowsOf rows
  { cashInflows := cashInflowsOf rows
    cashOutflows := cashOutflowsOf rows
    netChangeInCash := netChange
    closingCashBalance := getOpeningBalance entries cid fromDate + netChange }

/-- WHERE clause of the bank-reconciliation query (server.js lines 145-154):
`(reconciled = FALSE OR reconciled IS NULL) AND companyid = $1 AND
bankaccount = $2`. -/
def unreconciledFilter (cid bank : String) (e : LedgerEntry) : Bool :=
  (e.reconciled == some false || e.reconciled == none)
    && e.companyid == cid
    && e.bankaccount == some bank

/-- Rows returned by the bank-reconciliation query. -/
def reconcilingItems (entries : List LedgerEntry) (cid bank : String) :
    List LedgerEntry :=
  entries.filter (unreconciledFilter cid bank)

/-- Description attached to a reconciling item (server.js lines 162-170):
a fixed phrase for references CHQ102 and CHQ104, empty otherwise. -/
def descriptionFor (e : LedgerEntry) : String :=
  if e.reference == some "CHQ102" then "Cheque CHQ102 has not yet cleared the bank"
  else if e.reference == some "CHQ104" then "Bank charges not yet recorded in the ledger"
  else ""

/-- A reconciling item as returned to the client: the ledger entry spread
into the response together with its `description`. -/
structure DescribedItem where
  entry : LedgerEntry
  description : String
deriving DecidableEq

/-- Body of a successful `/api/bank-reconciliation` response (server.js
lines 174-179). -/
structure BankReconResponse where
  ledger_balance : Int
  bank_statement_balance : Int
  reconciling_items : List DescribedItem
  adjusted_balance_after_reconciliation : Int
deriving DecidableEq

/-- Successful bank-reconciliation report for validated parameters
(server.js lines 144-181): the balances are hardcoded constants, only the
reconciling items come from the database. -/
def bankReconReport (entries : List LedgerEntry) (cid bank : String) :
    BankReconResponse :=
  { ledger_balance := 22500
    bank_statement_balance := 19000
    reconciling_items :=
      (reconcilingItems entries cid bank).map
        (fun e => { entry := e, description := descriptionFor e })
    adjusted_balance_after_reconciliation := 22500 - 3000 - 500 }

/-- JavaScript falsiness of an HTTP query parameter: absent (`undefined`)
and the empty string are both falsy, any other string is truthy. -/
def falsyParam : Option String → Bool
  | none => true
  | some s => s == ""

/-- Outcome of the `/api/cash-flow` handler: HTTP status, error message,
body, and how many database queries were executed. -/
structure CashFlowOutcome where
  status : Nat
  error : Option String
  body : Option CashFlowResponse
  dbQueries : Nat
deriving DecidableEq

/-- The `/api/cash-flow` handler (server.js lines 63-134): validation first
(no query on failure), then the aggregation query and the opening-balance
query. -/
def cashFlowHandler (entries : List LedgerEntry)
    (companyid fromDate toDate : Option String) : CashFlowOutcome :=
  if falsyParam companyid || falsyParam fromDate || falsyParam toDate then
    { status := 400
      error := some "Missing required query parameters: companyid, fromDate, toDate"
      body := none
      dbQueries := 0 }
  else
    { status := 200
      error := none
      body := some (cashFlowReport entries (companyid.getD "") (fromDate.getD "")
        (toDate.getD ""))
      dbQueries := 2 }

/-- Outcome of the `/api/bank-reconciliation` handler. -/
structure BankReconOutcome where
  status : Nat
  error : Option String
  body : Option BankReconResponse
  dbQueries : Nat
deriving DecidableEq

/-- The `/api/bank-reconciliation` handler (server.js lines 137-186):
validation first (no query on failure), then the unreconciled-items
query. -/
def bankReconHandler (entries : List LedgerEntry)
    (companyid bankaccount : Option String) : BankReconOutcome :=
  if falsyParam companyid || falsyParam bankaccount then
    { status := 400
      error := some "Missing required query parameters: companyid, bankaccount"
      body := none
      dbQueries := 0 }
  else
    { status := 200
      error := none
      body := some (bankReconReport entries (companyid.getD "") (bankaccount.getD ""))
      dbQueries := 1 }

/-- Sample entry: an unreconciled cash receipt, used as a concrete witness. -/
def unreconciledCashEntry : LedgerEntry where
  companyid := "1"
  date := "2025-01-08"
  account := "Cash"
  party := none
  note := none
  debit := 900
  credit := 0
  reconciled := some false
  bankaccount := some "MainBank"
  reference := none

/-- Sample entry: a reconciled cash sale, used as a concrete witness. -/
def cashSaleEntry : LedgerEntry where
  companyid := "1"
  date := "2025-01-10"
  account := "Cash"
  party := none
  note := none
  debit := 100
  credit := 0
  reconciled := some true
  bankaccount := none
  reference := none

/-- Sample entry: a reconciled office-rent payment, used as a concrete
witness. -/
def rentEntry : LedgerEntry where
  companyid := "1"
  date := "2025-01-12"
  account := "Office Rent"
  party := none
  note := none
  debit := 0
  credit := 40
  reconciled := some true
  bankaccount := none
  reference := none

/-- Sample ledger realizing the worked example of spec §8. -/
def demoLedger : List LedgerEntry := [cashSaleEntry, rentEntry]

/-- Sample entry: a reconciled bank transaction, used as a concrete
witness. -/
def reconciledBankEntry : LedgerEntry where
  companyid := "1"
  date := "2025-01-15"
  account := "Cash"
  party := none
  note := none
  debit := 0
  credit := 300
  reconciled := some true
  bankaccount := some "MainBank"
  reference := none

/-- Sample entry: the unreconciled cheque CHQ104, used as a concrete
counterexample. -/
def chq104Entry : LedgerEntry where
  companyid := "1"
  date := "2025-01-20"
  account := "Bank Charges"
  party := none
  note := none
  debit := 0
  credit := 500
  reconciled := some false
  bankaccount := some "MainBank"
  reference := some "CHQ104"

/-- Sample entry: the unreconciled cheque CHQ102, used as a concrete
witness. -/
def chq102Entry : LedgerEntry where
  companyid := "1"
  date := "2025-01-22"
  account := "Cash"
  party := none
  note := none
  debit := 0
  credit := 3000
  reconciled := some false
  bankaccount := some "MainBank"
  reference := some "CHQ102"

/-- Subtracting the credit sum from the debit sum equals summing the
per-entry differences. -/
lemma sum_map_sub_eq (l : List LedgerEntry) :
    ((l.map fun e => e.debit).sum - (l.map fun e => e.credit).sum)
      = (l.map fun e => e.debit - e.credit).sum := by
  induction l with
  | nil => simp
  | cons a t ih =>
    simp only [List.map_cons, List.sum_cons]
    omega

/-- C1: a ledger row contributes to the cash-flow aggregation exactly when
it is reconciled, belongs to the requested company, falls in the inclusive
date range, and is either a positive cash debit or a positive credit on one
of the three expense accounts; in particular a row whose `reconciled` is
false or null never contributes. -/
theorem cashflow_filter_spec (entries : List LedgerEntry)
    (cid fromDate toDate : String) (e : LedgerEntry) :
    (e ∈ survivors entries cid fromDate toDate ↔
      e ∈ entries ∧ e.reconciled = some true ∧ e.companyid = cid ∧
        dateLe fromDate e.date = true ∧ dateLe e.date toDate = true ∧
        ((e.account = "Cash" ∧ 0 < e.debit) ∨
          (0 < e.credit ∧ (e.account = "Office Rent" ∨ e.account = "Utilities Expense"
            ∨ e.account = "Bank Charges"))))
    ∧ (e.reconciled ≠ some true → e ∉ survivors entries cid fromDate toDate) := by
  have h : e ∈ survivors entries cid fromDate toDate ↔
      e ∈ entries ∧ e.reconciled = some true ∧ e.companyid = cid ∧
        dateLe fromDate e.date = true ∧ dateLe e.date toDate = true ∧
        ((e.account = "Cash" ∧ 0 < e.debit) ∨
          (0 < e.credit ∧ (e.account = "Office Rent" ∨ e.account = "Utilities Expense"
            ∨ e.account = "Bank Charges"))) := by
    simp only [survivors, List.mem_filter, cashFlowFilter, Bool.and_eq_true,
      Bool.or_eq_true, beq_iff_eq, decide_eq_true_eq]
    tauto
  exact ⟨h, fun hne hmem => hne ((h.mp hmem).2.1)⟩

/-- Closed instance of `cashflow_filter_spec`: the unreconciled sample entry
is excluded from the aggregation. -/
theorem cashflow_filter_spec_witness :
    unreconciledCashEntry ∉ survivors [unreconciledCashEntry] "1" "2025-01-01" "2025-01-31" :=
  (cashflow_filter_spec [unreconciledCashEntry] "1" "2025-01-01" "2025-01-31"
    unreconciledCashEntry).2 (by decide)

/-- C5: the opening balance is the sum of `debit - credit` over exactly the
rows of the company dated strictly before the cutoff, with no condition on
`reconciled`, and it is 0 whenever no row matches. -/
theorem opening_balance_spec (entries : List LedgerEntry) (cid cutoff : String) :
    (getOpeningBalance entries cid cutoff =
      ((entries.filter (fun e => e.companyid == cid && dateLt e.date cutoff)).map
        (fun e => e.debit - e.credit)).sum)
    ∧ (∀ e, e ∈ entries.filter (fun x => x.companyid == cid && dateLt x.date cutoff) ↔
        e ∈ entries ∧ e.companyid = cid ∧ dateLt e.date cutoff = true)
    ∧ (entries.filter (fun e => e.companyid == cid && dateLt e.date cutoff) = [] →
        getOpeningBalance entries cid cutoff = 0) := by
  refine ⟨?_, ?_, ?_⟩
  · unfold getOpeningBalance
    split_ifs with h
    · rw [List.isEmpty_iff] at h
      rw [h]
      simp
    · exact sum_map_sub_eq _
  · intro e
    simp [List.mem_filter, Bool.and_eq_true, beq_iff_eq, and_assoc]
  · intro h
    unfold getOpeningBalance
    simp [h]

/-- Closed instance of `opening_balance_spec`: a company with no rows before
the cutoff has opening balance exactly 0. -/
theorem opening_balance_spec_witness :
    getOpeningBalance [cashSaleEntry] "1" "2025-01-01" = 0 :=
  (opening_balance_spec [cashSaleEntry] "1" "2025-01-01").2.2 (by decide)

/-- C6: the reconciling items are exactly the company's rows on the
requested bank account whose `reconciled` is false or null; a row with
`reconciled = true` never appears, and the response lists exactly these
rows, each with its description attached. -/
theorem reconciling_items_spec (entries : List LedgerEntry) (cid bank : String)
    (e : LedgerEntry) :
    (e ∈ reconcilingItems entries cid bank ↔
      e ∈ entries ∧ (e.reconciled = some false ∨ e.reconciled = none) ∧
        e.companyid = cid ∧ e.bankaccount = some bank)
    ∧ (e.reconciled = some true → e ∉ reconcilingItems entries cid bank)
    ∧ (bankReconReport entries cid bank).reconciling_items
        = (reconcilingItems entries cid bank).map
            (fun x => { entry := x, description := descriptionFor x }) := by
  have h : e ∈ reconcilingItems entries cid bank ↔
      e ∈ entries ∧ (e.reconciled = some false ∨ e.reconciled = none) ∧
        e.companyid = cid ∧ e.bankaccount = some bank := by
    simp only [reconcilingItems, List.mem_filter, unreconciledFilter,
      Bool.and_eq_true, Bool.or_eq_true, beq_iff_eq]
    tauto
  refine ⟨h, fun htrue hmem => ?_, rfl⟩
  have h2 := (h.mp hmem).2.1
  rw [htrue] at h2
  rcases h2 with h2 | h2 <;> simp at h2

/-- Closed instance of `reconciling_items_spec`: a reconciled bank entry
never appears among the reconciling items. -/
theorem reconciling_items_spec_witness :
    reconciledBankEntry ∉ reconcilingItems [reconciledBankEntry] "1" "MainBank" :=
  (reconciling_items_spec [reconciledBankEntry] "1" "MainBank" reconciledBankEntry).2.1 rfl

/-- C7 counterexample: the reconciling item with reference CHQ104 — a
reference other than CHQ102 — receives the fixed bank-charges phrase, not
the empty description. -/
theorem chq104_description_counterexample :
    chq104Entry.reference ≠ some "CHQ102"
    ∧ (bankReconReport [chq104Entry] "1" "MainBank").reconciling_items
        = [{ entry := chq104Entry
             description := "Bank charges not yet recorded in the ledger" }]
    ∧ descriptionFor chq104Entry ≠ "" := by
  refine ⟨by decide, by decide, by decide⟩

/-- C7 amended: every reconciling item's description is the fixed
outstanding-cheque phrase for reference CHQ102, the fixed bank-charges
phrase for reference CHQ104, and empty for any other reference. -/
theorem description_rule (entries : List LedgerEntry) (cid bank : String)
    (i : DescribedItem)
    (h : i ∈ (bankReconReport entries cid bank).reconciling_items) :
    i.description =
      if i.entry.reference = some "CHQ102" then
        "Cheque CHQ102 has not yet cleared the bank"
      else if i.entry.reference = some "CHQ104" then
        "Bank charges not yet recorded in the ledger"
      else "" := by
  simp only [bankReconReport, List.mem_map] at h
  obtain ⟨e, he, rfl⟩ := h
  by_cases h102 : e.reference = some "CHQ102"
  · simp [descriptionFor, h102]
  · by_cases h104 : e.reference = some "CHQ104"
    · simp [descriptionFor, h102, h104]
    · simp [descriptionFor, h102, h104]

/-- Closed instance of `description_rule`: the CHQ102 sample item carries
the outstanding-cheque phrase prescribed by the rule. -/
theorem description_rule_witness :
    (DescribedItem.mk chq102Entry "Cheque CHQ102 has not yet cleared the bank").description
      = if (DescribedItem.mk chq102Entry
            "Cheque CHQ102 has not yet cleared the bank").entry.reference = some "CHQ102" then
          "Cheque CHQ102 has not yet cleared the bank"
        else if (DescribedItem.mk chq102Entry
            "Cheque CHQ102 has not yet cleared the bank").entry.reference = some "CHQ104" then
          "Bank charges not yet recorded in the ledger"
        else "" :=
  description_rule [chq102Entry] "1" "MainBank"
    (DescribedItem.mk chq102Entry "Cheque CHQ102 has not yet cleared the bank")
    (by decide)

/-- C8: every successful bank-reconciliation response carries the hardcoded
balances 22500 and 19000 and the fixed adjustment 22500 - 3000 - 500 =
19000, independently of the company, the bank account and the table
contents. -/
theorem balances_hardcoded (entries : List LedgerEntry) (cid bank : String) :
    (bankReconReport entries cid bank).ledger_balance = 22500
    ∧ (bankReconReport entries cid bank).bank_statement_balance = 19000
    ∧ (bankReconReport entries cid bank).adjusted_balance_after_reconciliation
        = 22500 - 3000 - 500
    ∧ (bankReconReport entries cid bank).adjusted_balance_after_reconciliation = 19000 := by
  refine ⟨rfl, rfl, rfl, ?_⟩
  show (22500 - 3000 - 500 : Int) = 19000
  decide

/-- C9: a request to either endpoint with any required parameter absent gets
the 400 response naming the required fields, with zero database queries
executed. -/
theorem missing_param_400 (ecf erb : List LedgerEntry)
    (cid fd td cid2 bank : Option String) :
    (cid = none ∨ fd = none ∨ td = none →
      cashFlowHandler ecf cid fd td =
        { status := 400
          error := some "Missing required query parameters: companyid, fromDate, toDate"
          body := none
          dbQueries := 0 })
    ∧ (cid2 = none ∨ bank = none →
      bankReconHandler erb cid2 bank =
        { status := 400
          error := some "Missing required query parameters: companyid, bankaccount"
          body := none
          dbQueries := 0 }) := by
  constructor
  · rintro (rfl | rfl | rfl) <;> simp [cashFlowHandler, falsyParam]
  · rintro (rfl | rfl) <;> simp [bankReconHandler, falsyParam]

/-- Closed instance of `missing_param_400`: both endpoints reject a request
with a missing parameter without touching the database. -/
theorem missing_param_400_witness :
    cashFlowHandler [] none (some "2025-01-01") (some "2025-01-31") =
      { status := 400
        error := some "Missing required query parameters: companyid, fromDate, toDate"
        body := none
        dbQueries := 0 }
    ∧ bankReconHandler [] (some "1") none =
      { status := 400
        error := some "Missing required query parameters: companyid, bankaccount"
        body := none
        dbQueries := 0 } :=
  ⟨(missing_param_400 [] [] none (some "2025-01-01") (some "2025-01-31")
      (some "1") none).1 (Or.inl rfl),
   (missing_param_400 [] [] none (some "2025-01-01") (some "2025-01-31")
      (some "1") none).2 (Or.inr rfl)⟩

/-- C10: a required parameter equal to the empty string is treated exactly
like an absent one on both endpoints: identical outcome, status 400, and
zero database queries. -/
theorem empty_param_like_missing (ecf erb : List LedgerEntry) (p q : Option String) :
    cashFlowHandler ecf (some "") p q = cashFlowHandler ecf none p q
    ∧ cashFlowHandler ecf p (some "") q = cashFlowHandler ecf p none q
    ∧ cashFlowHandler ecf p q (some "") = cashFlowHandler ecf p q none
    ∧ bankReconHandler erb (some "") p = bankReconHandler erb none p
    ∧ bankReconHandler erb p (some "") = bankReconHandler erb p none
    ∧ (cashFlowHandler ecf (some "") p q).status = 400
    ∧ (cashFlowHandler ecf (some "") p q).dbQueries = 0
    ∧ (bankReconHandler erb (some "") p).status = 400
    ∧ (bankReconHandler erb (some "") p).dbQueries = 0 := by
  refine ⟨rfl, ?_, ?_, rfl, ?_, rfl, rfl, rfl, rfl⟩
  · simp [cashFlowHandler, falsyParam]
  · simp [cashFlowHandler, falsyParam]
  · simp [bankReconHandler, falsyParam]

/-- C2: the category of a row is decided by the CASE rules top-to-bottom,
first match winning: Financing for a cash row tied to an investor or a loan
deposit; Operating for the four named accounts; Investing for an inventory
purchase note; Operating otherwise. In particular the investor cash deposit
sample is Financing, not Operating. -/
theorem classify_spec (e : LedgerEntry) :
    (classify e = "Financing" ↔
      e.account = "Cash" ∧ (e.party = some "Investor"
        ∨ noteContainsCI e.note "Loan deposit" = true))
    ∧ (classify e = "Investing" ↔
      ¬(e.account = "Cash" ∧ (e.party = some "Investor"
          ∨ noteContainsCI e.note "Loan deposit" = true))
      ∧ ¬(e.account = "Sales" ∨ e.account = "Office Rent"
          ∨ e.account = "Utilities Expense" ∨ e.account = "Bank Charges")
      ∧ noteContainsCI e.note "Purchase inventory" = true)
    ∧ (classify e = "Operating" ↔
      ¬(e.account = "Cash" ∧ (e.party = some "Investor"
          ∨ noteContainsCI e.note "Loan deposit" = true))
      ∧ ((e.account = "Sales" ∨ e.account = "Office Rent"
          ∨ e.account = "Utilities Expense" ∨ e.account = "Bank Charges")
        ∨ noteContainsCI e.note "Purchase inventory" = false))
    ∧ classify investorCashEntry = "Financing"
    ∧ classify investorCashEntry ≠ "Operating" := by
  have hFO : ("Financing" : String) ≠ "Operating" := by decide
  have hOF : ("Operating" : String) ≠ "Financing" := by decide
  have hFI : ("Financing" : String) ≠ "Investing" := by decide
  have hIF : ("Investing" : String) ≠ "Financing" := by decide
  have hOI : ("Operating" : String) ≠ "Investing" := by decide
  have hInvOp : ("Investing" : String) ≠ "Operating" := by decide
  have e1 : (e.account == "Cash"
        && (e.party == some "Investor" || noteContainsCI e.note "Loan deposit")) = true ↔
      (e.account = "Cash" ∧ (e.party = some "Investor"
        ∨ noteContainsCI e.note "Loan deposit" = true)) := by
    simp [Bool.and_eq_true, Bool.or_eq_true, beq_iff_eq]
  have e2 : (e.account == "Sales" || e.account == "Office Rent"
        || e.account == "Utilities Expense" || e.account == "Bank Charges") = true ↔
      (e.account = "Sales" ∨ e.account = "Office Rent"
        ∨ e.account = "Utilities Expense" ∨ e.account = "Bank Charges") := by
    simp [Bool.or_eq_true, beq_iff_eq, or_assoc]
  by_cases h1 : e.account = "Cash" ∧ (e.party = some "Investor"
      ∨ noteContainsCI e.note "Loan deposit" = true)
  · have hc : classify e = "Financing" := by
      unfold classify
      rw [if_pos (e1.mpr h1)]
    refine ⟨?_, ?_, ?_, by decide, by decide⟩
    · rw [hc]
      simp [h1]
    · rw [hc]
      simp [hFI, h1]
    · rw [hc]
      simp [hFO, h1]
  · have hb1 : (e.account == "Cash"
        && (e.party == some "Investor" || noteContainsCI e.note "Loan deposit")) = false := by
      cases hbb : (e.account == "Cash"
          && (e.party == some "Investor" || noteContainsCI e.note "Loan deposit")) with
      | false => rfl
      | true => exact absurd (e1.mp hbb) h1
    by_cases h2 : e.account = "Sales" ∨ e.account = "Office Rent"
        ∨ e.account = "Utilities Expense" ∨ e.account = "Bank Charges"
    · have hc : classify e = "Operating" := by
        simp [classify, hb1, e2.mpr h2]
      refine ⟨?_, ?_, ?_, by decide, by decide⟩
      · rw [hc]
        simp [hOF, h1]
      · rw [hc]
        simp [hOI, h2]
      · rw [hc]
        simp [h1, h2]
    · have hb2 : (e.account == "Sales" || e.account == "Office Rent"
          || e.account == "Utilities Expense" || e.account == "Bank Charges") = false := by
        cases hbb : (e.account == "Sales" || e.account == "Office Rent"
            || e.account == "Utilities Expense" || e.account == "Bank Charges") with
        | false => rfl
        | true => exact absurd (e2.mp hbb) h2
      by_cases h3 : noteContainsCI e.note "Purchase inventory" = true
      · have hc : classify e = "Investing" := by
          simp [classify, hb1, hb2, h3]
        refine ⟨?_, ?_, ?_, by decide, by decide⟩
        · rw [hc]
          simp [hIF, h1]
        · rw [hc]
          simp [h1, h2, h3]
        · rw [hc]
          simp [hInvOp, h2, h3]
      · have hr3 : noteContainsCI e.note "Purchase inventory" = false := by
          cases hbb : noteContainsCI e.note "Purchase inventory" with
          | false => rfl
          | true => exact absurd hbb h3
        have hc : classify e = "Operating" := by
          simp [classify, hb1, hb2, hr3]
        refine ⟨?_, ?_, ?_, by decide, by decide⟩
        · rw [hc]
          simp [hOF, h1]
        · rw [hc]
          simp [hOI, hr3]
        · rw [hc]
          simp [h1, hr3]

/-- Closed instance of `classify_spec`: the investor cash deposit sample is
classified as Financing. -/
theorem classify_spec_witness : classify investorCashEntry = "Financing" :=
  (classify_spec investorCashEntry).1.mpr (by decide)

/-- The CASE expression only produces the three category names. -/
lemma classify_mem_categories (e : LedgerEntry) : classify e ∈ categories := by
  unfold classify categories
  split_ifs <;> simp

/-- A category with no surviving entry has an empty group. -/
lemma filter_cat_eq_nil (entries : List LedgerEntry) (cid fd td c : String)
    (h : (survivors entries cid fd td).any (fun e => classify e == c) = false) :
    (survivors entries cid fd td).filter (fun e => classify e == c) = [] := by
  rw [List.filter_eq_nil_iff]
  intro a ha hc
  have hh : (survivors entries cid fd td).any (fun e => classify e == c) = true :=
    List.any_eq_true.mpr ⟨a, ha, hc⟩
  rw [h] at hh
  exact Bool.false_ne_true hh

/-- A category with no surviving entry contributes zero to both sums. -/
lemma cat_sums_zero (entries : List LedgerEntry) (cid fd td c : String)
    (h : (survivors entries cid fd td).any (fun e => classify e == c) = false) :
    catInflow entries cid fd td c = 0 ∧ catOutflow entries cid fd td c = 0 := by
  have hnil := filter_cat_eq_nil entries cid fd td c h
  constructor
  · unfold catInflow
    rw [hnil]
    rfl
  · unfold catOutflow
    rw [hnil]
    rfl

/-- A positive inflow sum forces the category's group to be non-empty. -/
lemma any_of_catInflow_pos (entries : List LedgerEntry) (cid fd td c : String)
    (h : 0 < catInflow entries cid fd td c) :
    (survivors entries cid fd td).any (fun e => classify e == c) = true := by
  cases hb : (survivors entries cid fd td).any (fun e => classify e == c) with
  | true => rfl
  | false =>
    rw [(cat_sums_zero entries cid fd td c hb).1] at h
    exact absurd h (by decide)

/-- A positive outflow sum forces the category's group to be non-empty. -/
lemma any_of_catOutflow_pos (entries : List LedgerEntry) (cid fd td c : String)
    (h : 0 < catOutflow entries cid fd td c) :
    (survivors entries cid fd td).any (fun e => classify e == c) = true := by
  cases hb : (survivors entries cid fd td).any (fun e => classify e == c) with
  | true => rfl
  | false =>
    rw [(cat_sums_zero entries cid fd td c hb).2] at h
    exact absurd h (by decide)

/-- A category whose group is non-empty is one of the three categories. -/
lemma mem_categories_of_any (entries : List LedgerEntry) (cid fd td c : String)
    (h : (survivors entries cid fd td).any (fun e => classify e == c) = true) :
    c ∈ categories := by
  obtain ⟨e, _, he⟩ := List.any_eq_true.mp h
  rw [beq_iff_eq] at he
  rw [← he]
  exact classify_mem_categories e

/-- Membership in the `cashInflows` object, characterized by the category's
debit sum. -/
lemma mem_cashInflows_iff (entries : List LedgerEntry) (cid fd td c : String)
    (r : FlowRecord) :
    (c, r) ∈ cashInflowsOf (groupRows entries cid fd td) ↔
      0 < catInflow entries cid fd td c
        ∧ r = { inflows := catInflow entries cid fd td c, outflows := 0 } := by
  constructor
  · intro h
    obtain ⟨row, hrow, hsome⟩ := List.mem_filterMap.mp h
    obtain ⟨c2, hc2, rfl⟩ := List.mem_map.mp hrow
    by_cases hpos : 0 < catInflow entries cid fd td c2
    · rw [if_pos hpos] at hsome
      obtain ⟨hcc, hrr⟩ := Prod.mk.injEq .. ▸ (Option.some.injEq .. ▸ hsome)
      rw [← hcc]
      exact ⟨hpos, hrr.symm⟩
    · rw [if_neg hpos] at hsome
      exact absurd hsome (Option.noConfusion)
  · intro ⟨hpos, hr⟩
    have hany := any_of_catInflow_pos entries cid fd td c hpos
    have hcat := mem_categories_of_any entries cid fd td c hany
    refine List.mem_filterMap.mpr
      ⟨{ cashflow_category := c
         total_inflow := catInflow entries cid fd td c
         total_outflow := catOutflow entries cid fd td c }, ?_, ?_⟩
    · exact List.mem_map.mpr ⟨c, List.mem_filter.mpr ⟨hcat, hany⟩, rfl⟩
    · rw [if_pos hpos, hr]

/-- Membership in the `cashOutflows` object, characterized by the category's
credit sum. -/
lemma mem_cashOutflows_iff (entries : List LedgerEntry) (cid fd td c : String)
    (r : FlowRecord) :
    (c, r) ∈ cashOutflowsOf (groupRows entries cid fd td) ↔
      0 < catOutflow entries cid fd td c
        ∧ r = { inflows := 0, outflows := catOutflow entries cid fd td c } := by
  constructor
  · intro h
    obtain ⟨row, hrow, hsome⟩ := List.mem_filterMap.mp h
    obtain ⟨c2, hc2, rfl⟩ := List.mem_map.mp hrow
    by_cases hpos : 0 < catOutflow entries cid fd td c2
    · rw [if_pos hpos] at hsome
      obtain ⟨hcc, hrr⟩ := Prod.mk.injEq .. ▸ (Option.some.injEq .. ▸ hsome)
      rw [← hcc]
      exact ⟨hpos, hrr.symm⟩
    · rw [if_neg hpos] at hsome
      exact absurd hsome (Option.noConfusion)
  · intro ⟨hpos, hr⟩
    have hany := any_of_catOutflow_pos entries cid fd td c hpos
    have hcat := mem_categories_of_any entries cid fd td c hany
    refine List.mem_filterMap.mpr
      ⟨{ cashflow_category := c
         total_inflow := catInflow entries cid fd td c
         total_outflow := catOutflow entries cid fd td c }, ?_, ?_⟩
    · exact List.mem_map.mpr ⟨c, List.mem_filter.mpr ⟨hcat, hany⟩, rfl⟩
    · rw [if_pos hpos, hr]

/-- C3: a category is a key of `cashInflows` exactly when the debit sum of
its surviving rows is positive, with value `inflows = that sum, outflows =
0`; dually for `cashOutflows` with the credit sum; a category with both
sums positive appears in both objects, each record zeroing the counterpart
field. -/
theorem cashflow_maps_spec (entries : List LedgerEntry) (cid fd td c : String)
    (r : FlowRecord) :
    ((c, r) ∈ (cashFlowReport entries cid fd td).cashInflows ↔
      0 < catInflow entries cid fd td c
        ∧ r = { inflows := catInflow entries cid fd td c, outflows := 0 })
    ∧ ((c, r) ∈ (cashFlowReport entries cid fd td).cashOutflows ↔
      0 < catOutflow entries cid fd td c
        ∧ r = { inflows := 0, outflows := catOutflow entries cid fd td c })
    ∧ (0 < catInflow entries cid fd td c → 0 < catOutflow entries cid fd td c →
        ((c, { inflows := catInflow entries cid fd td c, outflows := 0 })
            ∈ (cashFlowReport entries cid fd td).cashInflows
          ∧ (c, { inflows := 0, outflows := catOutflow entries cid fd td c })
            ∈ (cashFlowReport entries cid fd td).cashOutflows)) := by
  refine ⟨mem_cashInflows_iff entries cid fd td c r,
    mem_cashOutflows_iff entries cid fd td c r, fun hi ho => ?_⟩
  exact ⟨(mem_cashInflows_iff entries cid fd td c _).mpr ⟨hi, rfl⟩,
    (mem_cashOutflows_iff entries cid fd td c _).mpr ⟨ho, rfl⟩⟩

/-- Closed instance of `cashflow_maps_spec` on the spec §8 ledger: the
Operating category has both a positive inflow and a positive outflow and
appears in both maps, each record zeroing the other side. -/
theorem cashflow_maps_spec_witness :
    ("Operating", ({ inflows := 100, outflows := 0 } : FlowRecord))
        ∈ (cashFlowReport demoLedger "1" "2025-01-01" "2025-01-31").cashInflows
    ∧ ("Operating", ({ inflows := 0, outflows := 40 } : FlowRecord))
        ∈ (cashFlowReport demoLedger "1" "2025-01-01" "2025-01-31").cashOutflows := by
  have h := (cashflow_maps_spec demoLedger "1" "2025-01-01" "2025-01-31" "Operating"
      { inflows := 100, outflows := 0 }).2.2 (by decide) (by decide)
  have hci : catInflow demoLedger "1" "2025-01-01" "2025-01-31" "Operating" = 100 := by
    decide
  have hco : catOutflow demoLedger "1" "2025-01-01" "2025-01-31" "Operating" = 40 := by
    decide
  rw [hci, hco] at h
  exact h

/-- Summing over the retained elements equals summing over the whole list
when every dropped element is sent to zero. -/
lemma sum_map_filter_of_zero (l : List String) (p : String → Bool) (f : String → Int)
    (h : ∀ c ∈ l, p c = false → f c = 0) :
    ((l.filter p).map f).sum = (l.map f).sum := by
  induction l with
  | nil => rfl
  | cons a t ih =>
    have iht := ih (fun c hc hpc => h c (List.mem_cons_of_mem a hc) hpc)
    cases hpa : p a with
    | true =>
      rw [List.filter_cons, if_pos hpa]
      simp only [List.map_cons, List.sum_cons]
      rw [iht]
    | false =>
      rw [List.filter_cons, if_neg (by simp [hpa])]
      simp only [List.map_cons, List.sum_cons]
      rw [h a (List.mem_cons_self a t) hpa, iht]
      omega

/-- The accumulated `totalInflows` equals the sum of the per-category debit
sums over all three categories. -/
lemma totalInflows_eq_sum_cats (entries : List LedgerEntry) (cid fd td : String) :
    totalInflowsOf (groupRows entries cid fd td)
      = (categories.map (fun c => catInflow entries cid fd td c)).sum := by
  unfold totalInflowsOf groupRows
  rw [List.map_map]
  exact sum_map_filter_of_zero categories _ _
    (fun c _ hpc => (cat_sums_zero entries cid fd td c hpc).1)

/-- The accumulated `totalOutflows` equals the sum of the per-category
credit sums over all three categories. -/
lemma totalOutflows_eq_sum_cats (entries : List LedgerEntry) (cid fd td : String) :
    totalOutflowsOf (groupRows entries cid fd td)
      = (categories.map (fun c => catOutflow entries cid fd td c)).sum := by
  unfold totalOutflowsOf groupRows
  rw [List.map_map]
  exact sum_map_filter_of_zero categories _ _
    (fun c _ hpc => (cat_sums_zero entries cid fd td c hpc).2)

/-- C4: `netChangeInCash` is the sum of the per-category inflow totals minus
the sum of the per-category outflow totals, and `closingCashBalance` is the
opening balance at `fromDate` plus that net change. -/
theorem netchange_closing_spec (entries : List LedgerEntry) (cid fd td : String) :
    ((cashFlowReport entries cid fd td).netChangeInCash
      = (categories.map (fun c => catInflow entries cid fd td c)).sum
        - (categories.map (fun c => catOutflow entries cid fd td c)).sum)
    ∧ (cashFlowReport entries cid fd td).closingCashBalance
      = getOpeningBalance entries cid fd
        + (cashFlowReport entries cid fd td).netChangeInCash := by
  constructor
  · show totalInflowsOf (groupRows entries cid fd td)
      - totalOutflowsOf (groupRows entries cid fd td) = _
    rw [totalInflows_eq_sum_cats, totalOutflows_eq_sum_cats]
  · rfl
